import Mathlib

set_option maxRecDepth 10000

/- Verification development for the fiobatch repository (fiobatch.py and
   joinhobo.py), a storage-benchmark sweep runner and its log/telemetry
   reconciler.

   Modelling conventions for the shallow embedding:
   - Python strings are Lean String values; the Python string operations
     used by the code (split on a one-character separator, strip, rstrip,
     endswith, join, splitlines) are re-implemented structurally over
     String.data so that every definition evaluates inside the kernel.
   - Python ints are Int; Python floats are modelled exactly as PyF, an
     unreduced fraction of Int numerator and denominator (the float values
     appearing in this code are small decimals, for which the exact
     rational model is faithful); pandas NaN cells are Option values.
   - Code that can raise an uncaught Python exception is embedded in
     Except String, with the error string naming the exception.
   - pandas specifics are modelled at the level the code relies on:
     DataFrame columns carry a dtype (object, float, int), .str accessor
     methods yield nulls on non-string cells, label slicing .loc with a
     sorted index keeps both endpoints, and astype(int) on a null raises.
   - pd.Timestamp values parsed by read_log are kept as their raw field
     text: none of the claims about read_log depend on datetime
     arithmetic, only on the pairing state machine. -/

/- ===== Python string and number primitives ===== -/

def splitOnCharAux (sep : Char) : List Char → List Char → List (List Char)
  | [], acc => [acc.reverse]
  | c :: cs, acc =>
    if c = sep then acc.reverse :: splitOnCharAux sep cs []
    else splitOnCharAux sep cs (c :: acc)

/-- Python str.split with a one-character separator (never drops empty fields). -/
def pySplitChar (s : String) (sep : Char) : List String :=
  (splitOnCharAux sep s.data []).map String.mk

/-- Python str.split(sep, 1): split at the first occurrence only. -/
def pySplit1Char (s : String) (sep : Char) : List String :=
  match pySplitChar s sep with
  | [] => [s]
  | [x] => [x]
  | x :: rest => [x, String.intercalate (String.mk [sep]) rest]

def pyStartsWithChar (s : String) (c : Char) : Bool :=
  match s.data with
  | [] => false
  | a :: _ => decide (a = c)

def pyEndsWith (s : String) (c : Char) : Bool :=
  match s.data.getLast? with
  | some a => decide (a = c)
  | none => false

def pyContainsChar (s : String) (c : Char) : Bool :=
  s.data.any (fun x => decide (x = c))

def isPySpace (c : Char) : Bool :=
  decide (c = ' ') || decide (c = '\t') || decide (c = '\n') || decide (c = '\r')

/-- Python str.strip() for the whitespace occurring in this code. -/
def pyTrim (s : String) : String :=
  String.mk (((s.data.dropWhile isPySpace).reverse.dropWhile isPySpace).reverse)

/-- Python str.rstrip(c): drop every trailing copy of the character c. -/
def pyRstripChar (s : String) (c : Char) : String :=
  String.mk ((s.data.reverse.dropWhile (fun x => decide (x = c))).reverse)

def pyDropChars (s : String) (k : Nat) : String :=
  String.mk (s.data.drop k)

/-- Python str.splitlines() for newline-separated text. -/
def pySplitlines (s : String) : List String :=
  if s = "" then []
  else if pyEndsWith s '\n' then (pySplitChar s '\n').dropLast
  else pySplitChar s '\n'

/-- Python sep.join(items). -/
def pyJoin (sep : String) : List String → String
  | [] => ""
  | [x] => x
  | x :: y :: rest => x ++ sep ++ pyJoin sep (y :: rest)

def digitsToNat (cs : List Char) : Nat :=
  cs.foldl (fun a c => a * 10 + (c.toNat - 48)) 0

/-- Python int(s) on the string forms this code feeds it (optional sign, digits). -/
def pyInt? (s : String) : Option Int :=
  let t := pyTrim s
  let sgn : Int := if pyStartsWithChar t '-' then -1 else 1
  let body := if pyStartsWithChar t '-' || pyStartsWithChar t '+' then pyDropChars t 1 else t
  if body.data.length > 0 && body.data.all Char.isDigit then
    some (sgn * (digitsToNat body.data : Int))
  else none

/-- Exact model of a Python float: an unreduced fraction of integers.
    All values built by this development have a positive denominator. -/
structure PyF where
  n : Int
  d : Int
  deriving DecidableEq, Repr

def PyF.add (a b : PyF) : PyF := ⟨a.n * b.d + b.n * a.d, a.d * b.d⟩

def PyF.sub (a b : PyF) : PyF := ⟨a.n * b.d - b.n * a.d, a.d * b.d⟩

def PyF.mul (a b : PyF) : PyF := ⟨a.n * b.n, a.d * b.d⟩

def PyF.div (a b : PyF) : PyF := ⟨a.n * b.d, a.d * b.n⟩

/-- Numeric equality of two fractions with positive denominators. -/
def PyF.eqb (a b : PyF) : Bool := decide (a.n * b.d = b.n * a.d)

/-- Numeric comparison of two fractions with positive denominators. -/
def PyF.leb (a b : PyF) : Bool := decide (a.n * b.d ≤ b.n * a.d)

def PyF.toRat (a : PyF) : ℚ := (a.n : ℚ) / (a.d : ℚ)

/-- Python float(s) on decimal literals (optional sign, digits, optional
    fractional part), the forms occurring in this data. -/
def pyFloat? (s : String) : Option PyF :=
  let t := pyTrim s
  let sgn : Int := if pyStartsWithChar t '-' then -1 else 1
  let body := if pyStartsWithChar t '-' || pyStartsWithChar t '+' then pyDropChars t 1 else t
  match pySplitChar body '.' with
  | [ip] =>
    if ip.data.length > 0 && ip.data.all Char.isDigit then
      some ⟨sgn * (digitsToNat ip.data : Int), 1⟩
    else none
  | [ip, fp] =>
    if (ip.data.length > 0 || fp.data.length > 0) && ip.data.all Char.isDigit
        && fp.data.all Char.isDigit then
      some ⟨sgn * ((digitsToNat ip.data : Int) * (10 : Int) ^ fp.data.length
              + (digitsToNat fp.data : Int)), (10 : Int) ^ fp.data.length⟩
    else none
  | _ => none

/-- Association-list lookup by key (Python dict indexing / dict.get). -/
def assoc {α : Type} (m : List (String × α)) (k : String) : Option α :=
  match m with
  | [] => none
  | (k2, v) :: rest => if k2 = k then some v else assoc rest k

def allSome {α : Type} : List (Option α) → Option (List α)
  | [] => some []
  | none :: _ => none
  | some x :: rest => (allSome rest).map (fun xs => x :: xs)

/-- Sequencing of a fallible Python loop body over a list: the first raised
    exception aborts the whole loop. -/
def exceptMap {α β : Type} (f : α → Except String β) : List α → Except String (List β)
  | [] => .ok []
  | a :: l =>
    match f a with
    | .error e => .error e
    | .ok b =>
      match exceptMap f l with
      | .error e => .error e
      | .ok bs => .ok (b :: bs)

/- ===== fiobatch.py: data model ===== -/

/-- JSON scalar values of the sweep specification (string or integer). -/
inductive JVal where
  | s : String → JVal
  | i : Int → JVal
  deriving DecidableEq, Repr

/-- Python str(v) of a JSON scalar. -/
def JVal.str : JVal → String
  | .s v => v
  | .i v => toString v

/-- A parameter mapping: Python dict in insertion order.  main() builds it
    with the declared fio parameter keys first and the replicate entry
    appended last. -/
abbrev Mapping := List (String × JVal)

def mapGet (m : Mapping) (k : String) : JVal :=
  (assoc m k).getD (JVal.s "")

/-- FioJob.__str__: key=value pairs of the mapping joined by a comma-space,
    in dict insertion order. -/
def serializeMapping (m : Mapping) : String :=
  pyJoin ", " (m.map (fun p => p.1 ++ "=" ++ p.2.str))

/-- FioJob.fio_headers from fiobatch.py: the fixed terse-output schema. -/
def fio_headers : String :=
  "terse_version_3;fio_version;jobname;groupid;error;read_kb;read_bandwidth_kb;read_iops;read_runtime_ms;read_slat_min_us;read_slat_max_us;read_slat_mean_us;read_slat_dev_us;read_clat_min_us;read_clat_max_us;read_clat_mean_us;read_clat_dev_us;read_clat_pct01;read_clat_pct02;read_clat_pct03;read_clat_pct04;read_clat_pct05;read_clat_pct06;read_clat_pct07;read_clat_pct08;read_clat_pct09;read_clat_pct10;read_clat_pct11;read_clat_pct12;read_clat_pct13;read_clat_pct14;read_clat_pct15;read_clat_pct16;read_clat_pct17;read_clat_pct18;read_clat_pct19;read_clat_pct20;read_tlat_min_us;read_lat_max_us;read_lat_mean_us;read_lat_dev_us;read_bw_min_kb;read_bw_max_kb;read_bw_agg_pct;read_bw_mean_kb;read_bw_dev_kb;write_kb;write_bandwidth_kb;write_iops;write_runtime_ms;write_slat_min_us;write_slat_max_us;write_slat_mean_us;write_slat_dev_us;write_clat_min_us;write_clat_max_us;write_clat_mean_us;write_clat_dev_us;write_clat_pct01;write_clat_pct02;write_clat_pct03;write_clat_pct04;write_clat_pct05;write_clat_pct06;write_clat_pct07;write_clat_pct08;write_clat_pct09;write_clat_pct10;write_clat_pct11;write_clat_pct12;write_clat_pct13;write_clat_pct14;write_clat_pct15;write_clat_pct16;write_clat_pct17;write_clat_pct18;write_clat_pct19;write_clat_pct20;write_tlat_min_us;write_lat_max_us;write_lat_mean_us;write_lat_dev_us;write_bw_min_kb;write_bw_max_kb;write_bw_agg_pct;write_bw_mean_kb;write_bw_dev_kb;cpu_user;cpu_sys;cpu_csw;cpu_mjf;cpu_minf;iodepth_1;iodepth_2;iodepth_4;iodepth_8;iodepth_16;iodepth_32;iodepth_64;lat_2us;lat_4us;lat_10us;lat_20us;lat_50us;lat_100us;lat_250us;lat_500us;lat_750us;lat_1000us;lat_2ms;lat_4ms;lat_10ms;lat_20ms;lat_50ms;lat_100ms;lat_250ms;lat_500ms;lat_750ms;lat_1000ms;lat_2000ms;lat_over_2000ms;disk_name;disk_read_iops;disk_write_iops;disk_read_merges;disk_write_merges;disk_read_ticks;write_ticks;disk_queue_time;disk_util"

/- ===== fiobatch.py: template renderer (string.Template, stdlib collaborator) ===== -/

/-- Parsed part of a fio script template: literal text or a named
    placeholder.  Models the parse that string.Template performs on the
    template text. -/
inductive TplPart where
  | lit : String → TplPart
  | var : String → TplPart
  deriving DecidableEq, Repr

/-- Template(template).substitute(mapping): strict substitution, raising
    KeyError on a placeholder with no corresponding mapping entry. -/
def substituteTpl (tpl : List TplPart) (m : Mapping) : Except String String :=
  match tpl with
  | [] => .ok ""
  | .lit s :: rest => (substituteTpl rest m).map (fun r => s ++ r)
  | .var k :: rest =>
    match assoc m k with
    | some v => (substituteTpl rest m).map (fun r => v.str ++ r)
    | none => .error ("KeyError: " ++ k)

/- ===== fiobatch.py: parameter expansion (main) ===== -/

/-- Sweep specification after read_params: each parameter carries its
    candidate list (scalars already coerced to singleton lists) and the
    replicate list is explicit. -/
structure Sweep where
  fioParams : List (String × List JVal)
  replicates : List JVal
  deriving Repr

def paramKeys (s : Sweep) : List String := s.fioParams.map Prod.fst

def candidateLists (s : Sweep) : List (List JVal) := s.fioParams.map Prod.snd

/-- itertools.product over the candidate lists (first parameter varies slowest). -/
def prodLists {α : Type} : List (List α) → List (List α)
  | [] => [[]]
  | l :: ls => l.flatMap (fun x => (prodLists ls).map (fun t => x :: t))

/-- The declared CSV key-column order: replicate first, then the parameters. -/
def jobOrder (s : Sweep) : List String := "replicate" :: paramKeys s

/-- The parameter mappings generated for one replicate and one template:
    the cartesian product, reordered by random.shuffle (modelled by the
    function sh, an arbitrary reordering quantified in the theorems), each
    tuple turned into a mapping with the replicate entry appended. -/
def mappingsFor (s : Sweep) (sh : List (List JVal) → List (List JVal)) (rep : JVal) :
    List Mapping :=
  (sh (prodLists (candidateLists s))).map
    (fun values => (paramKeys s).zip values ++ [("replicate", rep)])

/-- The mapping without its replicate entry: the sweep combination it executes. -/
def comboOf (m : Mapping) : Mapping := m.dropLast

/-- Job construction for one template: render the script for every mapping.
    t.substitute is called inside the loop with no handler, so a KeyError
    aborts the whole expansion. -/
def jobsForTemplate (tpl : List TplPart) (s : Sweep)
    (sh : List (List JVal) → List (List JVal)) (rep : JVal) :
    Except String (List (String × Mapping)) :=
  exceptMap (fun m => (substituteTpl tpl m).map (fun scr => (scr, m))) (mappingsFor s sh rep)

/-- All jobs of one replicate: the per-template job lists concatenated in
    template order (fiobatch main, inner loop). -/
def jobsForReplicate (tpls : List (List TplPart)) (s : Sweep)
    (sh : List (List JVal) → List (List JVal)) (rep : JVal) :
    Except String (List (String × Mapping)) :=
  match exceptMap (fun tpl => jobsForTemplate tpl s sh rep) tpls with
  | .error e => .error e
  | .ok chunks => .ok chunks.flatten

/-- All jobs of the run: one replicate after another. -/
def allJobs (tpls : List (List TplPart)) (s : Sweep)
    (sh : List (List JVal) → List (List JVal)) :
    Except String (List (String × Mapping)) :=
  match exceptMap (fun rep => jobsForReplicate tpls s sh rep) s.replicates with
  | .error e => .error e
  | .ok chunks => .ok chunks.flatten

/-- The CSV header row written by main(): key columns then the fio schema. -/
def csvHeader (s : Sweep) : String :=
  pyJoin ";" (jobOrder s) ++ ";" ++ fio_headers

/- ===== fiobatch.py: job execution (FioJob.run, FioJob.run_before) ===== -/

/-- A constructed job: correlation id, rendered script, mapping, key order. -/
structure FioJob where
  batchid : Int
  fio : String
  mapping : Mapping
  order : List String
  deriving DecidableEq, Repr

/-- Events emitted through the logger, by level. -/
inductive LogEvent where
  | debug : String → LogEvent
  | info : String → LogEvent
  | error : String → LogEvent
  deriving DecidableEq, Repr

/-- Outcome of the fio subprocess: timeout, or completion with an exit code
    and captured stdout/stderr. -/
inductive ProcOutcome where
  | timeout : ProcOutcome
  | done : Int → String → String → ProcOutcome
  deriving DecidableEq, Repr

/-- Result of subprocess.run for the pre-hook: exit code plus captured
    stdout and stderr, which are BYTES objects (capture_output=True without
    text=True). -/
structure SpRunResult where
  returncode : Int
  stdout : List Nat
  stderr : List Nat
  deriving DecidableEq, Repr

/-- A Python value that is either str or bytes, for the dynamic typing of
    the pre-hook logging expression. -/
inductive PyVal where
  | str : String → PyVal
  | bytes : List Nat → PyVal
  deriving DecidableEq, Repr

/-- Python binary + on str/bytes operands: concatenation only within one
    type, TypeError across types. -/
def pyAdd : PyVal → PyVal → Except String PyVal
  | .str a, .str b => .ok (.str (a ++ b))
  | .bytes a, .bytes b => .ok (.bytes (a ++ b))
  | _, _ => .error "TypeError: can only concatenate str (not bytes) to str"

/-- bytes.decode of purported ASCII output. -/
def asciiDecode (b : List Nat) : Except String String :=
  if b.all (fun x => decide (x < 128)) then
    .ok (String.mk (b.map Char.ofNat))
  else .error "UnicodeDecodeError"

/-- FioJob.run_before: when a before-command is configured, run it and
    handle its outcome.  The non-zero-exit branch builds its log message by
    concatenating an f-string with result.stderr, which is bytes, so that
    branch itself raises TypeError. -/
def run_before (before : Option String) (res : SpRunResult) :
    Except String (List LogEvent) :=
  match before with
  | none => .ok []
  | some cmd =>
    let evs := [LogEvent.info ("Before: " ++ cmd)]
    if res.returncode ≠ 0 then
      match pyAdd (.str ("Process returned " ++ toString res.returncode ++ ":\n"))
          (.bytes res.stderr) with
      | .ok (.str msg) => .ok (evs ++ [.error msg])
      | .ok (.bytes _) => .ok evs
      | .error e => .error e
    else if res.stdout ≠ [] then
      match asciiDecode res.stdout with
      | .ok s => .ok (evs ++ [.info ("Output:\n" ++ s)])
      | .error e => .error e
    else .ok evs

def startMsg (j : FioJob) : String :=
  "start|batchid=" ++ toString j.batchid ++ "|" ++ serializeMapping j.mapping

def stopMsg (j : FioJob) : String :=
  "stop|batchid=" ++ toString j.batchid ++ "|" ++ serializeMapping j.mapping

/-- Error text for a non-zero exit code, with stdout/stderr appended when
    they are not blank. -/
def retMsg (rc : Int) (stdout stderr : String) : String :=
  "Job return code is " ++ toString rc
    ++ (if pyTrim stdout ≠ "" then "\n" ++ stdout else "")
    ++ (if pyTrim stderr ≠ "" then "\n" ++ stderr else "")

/-- The per-row CSV prefix: the mapping values in the declared key order
    (replicate first) joined by the delimiter, with a trailing delimiter. -/
def toPrepend (j : FioJob) : String :=
  pyJoin ";" (j.order.map (fun k => (mapGet j.mapping k).str)) ++ ";"

/-- The rows appended to the output stream on success: one prefixed row per
    line of the terse output (trailing newlines stripped first). -/
def successRows (j : FioJob) (stdout : String) : List String :=
  (pySplitlines (pyRstripChar stdout '\n')).map (fun line => toPrepend j ++ line)

def successText (j : FioJob) (stdout : String) : String :=
  String.intercalate "\n" (successRows j stdout) ++ "\n"

/-- Final state of FioJob.run: logged events, text written to the output
    stream, and the success flag. -/
structure RunOut where
  events : List LogEvent
  written : Option String
  success : Option Bool
  deriving DecidableEq, Repr

/-- FioJob.run: pre-hook, debug dump, start event, subprocess, then the
    stop event on every non-timeout return (it is logged before the exit
    code is inspected), then failure classification or the output rows. -/
def FioJob.run (j : FioJob) (before : Option String) (bres : SpRunResult)
    (proc : ProcOutcome) : Except String RunOut :=
  match run_before before bres with
  | .error e => .error e
  | .ok evs0 =>
    let evs := evs0 ++ [LogEvent.debug ("fio input:\n" ++ j.fio), LogEvent.info (startMsg j)]
    match proc with
    | .timeout =>
      .ok ⟨evs ++ [.error ("Timeout waiting for " ++ serializeMapping j.mapping)], none, some false⟩
    | .done rc stdout stderr =>
      let evs2 := evs ++ [LogEvent.info (stopMsg j)]
      if rc ≠ 0 then
        .ok ⟨evs2 ++ [.error (retMsg rc stdout stderr)], none, some false⟩
      else
        .ok ⟨evs2, some (successText j stdout), some true⟩

/- ===== joinhobo.py: read_log ===== -/

/-- One matched (start, stop) record produced by read_log.  The timestamps
    keep the raw text of the first pipe-field. -/
structure LogRec where
  batchid : Int
  start : String
  stop : String
  params : String
  deriving DecidableEq, Repr

/-- Pairing state: the pending start event (its timestamp text and its
    serialized-parameter text), or none. -/
abbrev Pending := Option (String × String)

/-- Processing of one five-field log line (read_log loop body).
    fields(3).split on the equals sign indexed at 1 raises IndexError when
    absent, and int() raises ValueError on a non-numeric id. -/
def readLogStep5 (pending : Pending) (fields : List String) :
    Except String (Pending × List LogRec × List String) :=
  let ts := fields.headD ""
  match (pySplitChar (fields.getD 3 "") '=').get? 1 with
  | none => .error "IndexError: list index out of range"
  | some bidStr =>
    match pyInt? bidStr with
    | none => .error "ValueError: invalid literal for int"
    | some bid =>
      let params := pyTrim (fields.getD 4 "")
      let ev := fields.getD 2 ""
      if ev = "start" then
        match pending with
        | none => .ok (some (ts, params), [], [])
        | some p => .ok (some p, [], ["Unexpected start after " ++ params])
      else if ev = "stop" then
        match pending with
        | some (t0, p0) =>
          if params = p0 then .ok (none, [⟨bid, t0, ts, params⟩], [])
          else .ok (some (t0, p0), [], ["Mismatched stop line for " ++ params])
        | none => .ok (none, [], ["Mismatched stop line for " ++ params])
      else .ok (pending, [], ["Unrecognized event " ++ ev ++ ", skipping"])

/-- Processing of one log line: only lines that split into exactly five
    pipe-separated fields are examined at all. -/
def readLogStep (pending : Pending) (line : String) :
    Except String (Pending × List LogRec × List String) :=
  if (pySplitChar line '|').length = 5 then
    readLogStep5 pending (pySplitChar line '|')
  else .ok (pending, [], [])

def readLogAux (pending : Pending) : List String → Except String (List LogRec × List String)
  | [] => .ok ([], [])
  | l :: ls =>
    match readLogStep pending l with
    | .error e => .error e
    | .ok (p2, rs, ws) =>
      match readLogAux p2 ls with
      | .error e => .error e
      | .ok (rs2, ws2) => .ok (rs ++ rs2, ws ++ ws2)

/-- read_log over the lines of the log file: matched records plus the
    diagnostics written to stderr.  A start still pending when the input
    ends is discarded. -/
def readLog (lines : List String) : Except String (List LogRec × List String) :=
  readLogAux none lines

/-- Final parse of a serialized parameter string into a mapping
    (read_log, closing loop): pairs split on a comma-space, each pair split
    once at the equals sign. -/
def parseParams (p : String) : List (String × String) :=
  ((splitOnCharAux ',' p.data []).map String.mk).map
    (fun pair => match pySplit1Char (pyTrim pair) '=' with
      | [k, v] => (k, v)
      | _ => (pyTrim pair, ""))

/- ===== joinhobo.py: telemetry windowing (main loop body) ===== -/

/-- One HOBO telemetry sample: timestamp and the Active Power channel, in
    seconds/watts on the common timeline. -/
structure HoboSample where
  time : PyF
  activePower : PyF
  deriving DecidableEq, Repr

/-- One correlated log record as consumed by the reconciler main loop. -/
structure EventRow where
  batchid : Int
  start : PyF
  stop : PyF
  params : List (String × String)
  deriving DecidableEq, Repr

/-- One output row of the reconciler main loop. -/
structure JoinedRow where
  batchid : Int
  start : PyF
  stop : PyF
  duration : PyF
  numSamples : Nat
  wattsMean : Option PyF
  deriving DecidableEq, Repr

/-- hobo.loc with a slice on a sorted time index: label slicing keeps BOTH
    endpoints. -/
def windowSamples (hobo : List HoboSample) (lo hi : PyF) : List HoboSample :=
  hobo.filter (fun s => lo.leb s.time && s.time.leb hi)

/-- Series.mean: NaN (none) on an empty selection, otherwise sum over count. -/
def seriesMean (l : List PyF) : Option PyF :=
  if l.length = 0 then none
  else some ((l.foldl PyF.add ⟨0, 1⟩).div ⟨(l.length : Int), 1⟩)

def mkJoinedRow (hobo : List HoboSample) (r : EventRow) (lo : PyF) : JoinedRow :=
  let interval := windowSamples hobo lo r.stop
  { batchid := r.batchid
    start := r.start
    stop := r.stop
    duration := r.stop.sub r.start
    numSamples := interval.length
    wattsMean := seriesMean (interval.map (fun s => s.activePower)) }

/-- The reconciler main-loop body for one record: shift the window start by
    ramp_time when the parameter is present (float() of it raises on a
    non-numeric value), slice the telemetry, and summarize. -/
def reconcileRow (hobo : List HoboSample) (r : EventRow) : Except String JoinedRow :=
  match assoc r.params "ramp_time" with
  | some v =>
    match pyFloat? v with
    | none => .error "ValueError: could not convert string to float"
    | some q => .ok (mkJoinedRow hobo r (r.start.add q))
  | none => .ok (mkJoinedRow hobo r r.start)

/- ===== joinhobo.py: CSV normalization passes ===== -/

/-- A DataFrame column with its dtype: object holding strings, object
    holding (float, int) tuples, float64 with possible NaN cells, int64. -/
inductive Col where
  | objS : List String → Col
  | objP : List (PyF × Int) → Col
  | flt : List (Option PyF) → Col
  | intCol : List Int → Col
  deriving DecidableEq, Repr

/-- A DataFrame: named columns in order. -/
abbrev DF := List (String × Col)

def isObjCol : Col → Bool
  | .objS _ => true
  | .objP _ => true
  | _ => false

/-- The object-dtype column names, snapshotted before a normalization pass
    starts (df.dtypes indexing). -/
def objCols (df : DF) : List String :=
  (df.filter (fun p => isObjCol p.2)).map Prod.fst

/-- convert_percentages on one column.  On an object column of strings all
    ending in the percent sign, strip it and divide by 100; a conversion
    failure lands in the bare except clause, which itself raises NameError
    because no function named warning exists in joinhobo.py.  On an object
    column of tuples the .str accessor yields all nulls, every null passes
    the endswith test inside all(), and astype(float) of the nulls quietly
    replaces the column by NaN floats. -/
def colPct : Col → Except String Col
  | Col.objS vs =>
    if vs.all (fun s => pyEndsWith s '%') then
      match allSome (vs.map (fun s => pyFloat? (pyRstripChar s '%'))) with
      | some qs => .ok (Col.flt (qs.map (fun q => some (q.div ⟨100, 1⟩))))
      | none => .error "NameError: name warning is not defined"
    else .ok (Col.objS vs)
  | Col.objP vs => .ok (Col.flt (vs.map (fun _ => none)))
  | c => .ok c

def convert_percentages (df : DF) : Except String DF :=
  exceptMap (fun p => (colPct p.2).map (fun c2 => (p.1, c2))) df

/-- Left side of a histogram cell: percentage form divided by 100,
    otherwise float() of the text (raising on a non-numeric value). -/
def histLeft (ls : List String) : Except String (List PyF) :=
  if ls.all (fun s => pyEndsWith s '%') then
    match allSome (ls.map (fun s => pyFloat? (pyRstripChar s '%'))) with
    | some qs => .ok (qs.map (fun q => q.div ⟨100, 1⟩))
    | none => .error "ValueError: could not convert string to float"
  else
    match allSome (ls.map pyFloat?) with
    | some qs => .ok qs
    | none => .error "ValueError: could not convert string to float"

/-- Right side of a histogram cell: astype(int). -/
def histRight (rs : List String) : Except String (List Int) :=
  match allSome (rs.map pyInt?) with
  | some ns => .ok ns
  | none => .error "ValueError: invalid literal for int"

def dfDrop (df : DF) (col : String) : DF :=
  df.filter (fun p => decide (p.1 ≠ col))

def dfSet (df : DF) (col : String) (c : Col) : DF :=
  df.map (fun p => if p.1 = col then (p.1, c) else p)

def dfRename (df : DF) (old new : String) : DF :=
  df.map (fun p => if p.1 = old then (new, p.2) else p)

def dfHasCol (df : DF) (col : String) : Bool :=
  df.any (fun p => decide (p.1 = col))

/-- Base name for a collapsed histogram column: the re.search on the
    _pct-digit-digit suffix, keeping the stem when it matches. -/
def histNewBase (col : String) : String :=
  let cs := col.data
  let ln := cs.length
  if 7 ≤ ln && decide ((cs.drop (ln - 6)).take 4 = ['_', 'p', 'c', 't'])
      && (cs.drop (ln - 2)).all Char.isDigit then
    String.mk (cs.take (ln - 6))
  else col

def fracDigitsLoop (rem d : Nat) : Nat → List Nat
  | 0 => []
  | k + 1 => (rem * 10 / d) :: fracDigitsLoop (rem * 10 % d) d k

/-- Python percent-g formatting of the terminating decimals in this data:
    integer part, then fractional digits with trailing zeros stripped. -/
def pyFmtG (x : PyF) : String :=
  let neg := decide (x.n * x.d < 0)
  let nn := x.n.natAbs
  let dd := x.d.natAbs
  let ip := nn / dd
  let fracDigits := (fracDigitsLoop (nn % dd) dd 6).reverse.dropWhile (fun k => k = 0)
  let body :=
    if fracDigits = [] then toString ip
    else toString ip ++ "." ++ String.mk (fracDigits.reverse.map (fun k => Char.ofNat (48 + k)))
  if neg then "-" ++ body else body

/-- convert_histogram on one column of the snapshot.  A string column whose
    cells all contain an equals sign is split once; all-zero columns are
    dropped; a column with one distinct left value collapses to the integer
    rights and is renamed unless the new name already exists; otherwise the
    column becomes (float, int) tuples.  On a tuple column the .str
    accessor yields nulls, the all() guards pass on nulls, and astype(int)
    raises on the nulls (except for the empty column, which falls through
    the all-zero check and is dropped). -/
def histStep (df : DF) (col : String) : Except String DF :=
  match assoc df col with
  | none => .ok df
  | some (Col.objS vs) =>
    if vs.all (fun s => pyContainsChar s '=') then
      match histLeft (vs.map (fun s => (pySplit1Char s '=').headD "")) with
      | .error e => .error e
      | .ok ls =>
        match histRight (vs.map (fun s => (pySplit1Char s '=').getD 1 "")) with
        | .error e => .error e
        | .ok rs =>
          if ls.all (fun x => x.eqb ⟨0, 1⟩) && rs.all (fun r => decide (r = 0)) then
            .ok (dfDrop df col)
          else if ls.all (fun x => x.eqb (ls.headD ⟨0, 1⟩)) then
            let df2 := dfSet df col (Col.intCol rs)
            let newname := histNewBase col ++ "_"
              ++ pyFmtG (PyF.mul ⟨100, 1⟩ (ls.headD ⟨0, 1⟩)) ++ "p"
            if dfHasCol df2 newname then .ok df2
            else .ok (dfRename df2 col newname)
          else .ok (dfSet df col (Col.objP (ls.zip rs)))
    else .ok df
  | some (Col.objP vs) =>
    if vs = [] then .ok (dfDrop df col)
    else .error "IntCastingNaNError: cannot convert non-finite values to integer"
  | some _ => .ok df

def histFold (df : DF) : List String → Except String DF
  | [] => .ok df
  | c :: cs =>
    match histStep df c with
    | .error e => .error e
    | .ok df2 => histFold df2 cs

/-- convert_histogram: fold histStep over the snapshot of object columns. -/
def convert_histogram (df : DF) : Except String DF :=
  histFold df (objCols df)

/- ===== Concrete instances referenced by the claim theorems ===== -/

deriving instance DecidableEq for Except

/-- The observable event log of one FioJob.run call. -/
def runEvents (j : FioJob) (before : Option String) (bres : SpRunResult)
    (proc : ProcOutcome) : List LogEvent :=
  match FioJob.run j before bres proc with
  | .ok st => st.events
  | .error _ => []

def c1Sweep : Sweep := ⟨[("bs", [JVal.s "4k", JVal.s "8k"])], [JVal.i 1, JVal.i 2]⟩

def c1Tpl : List TplPart := [TplPart.lit "[job]\nbs=", TplPart.var "bs", TplPart.lit "\n"]

def c1Jobs : List (String × Mapping) :=
  [("[job]\nbs=4k\n", [("bs", JVal.s "4k"), ("replicate", JVal.i 1)]),
   ("[job]\nbs=8k\n", [("bs", JVal.s "8k"), ("replicate", JVal.i 1)])]

def c2StartLine : String := "2024-01-01 10:00:00,000|INFO|start|batchid=1|bs=4k, replicate=1"

def c2StopLine : String := "2024-01-01 10:00:05,000|INFO|stop|batchid=2|bs=4k, replicate=1"

def c2Interleaved : List String :=
  ["2024-01-01 09:00:00,000|INFO|start|batchid=1|a=1",
   "2024-01-01 09:00:01,000|INFO|start|batchid=2|a=2",
   "2024-01-01 09:00:02,000|INFO|stop|batchid=2|a=2",
   "2024-01-01 09:00:03,000|INFO|stop|batchid=1|a=1"]

def c2Sequential : List String :=
  ["2024-01-01 09:00:00,000|INFO|start|batchid=1|a=1",
   "2024-01-01 09:00:02,000|INFO|stop|batchid=1|a=1",
   "2024-01-01 09:00:03,000|INFO|start|batchid=2|a=2",
   "2024-01-01 09:00:04,000|INFO|stop|batchid=2|a=2"]

def c5LoneStart : String := "2024-02-02 08:00:00,000|INFO|start|batchid=7|x=1"

def c5Log : List String :=
  ["2024-02-02 08:00:00,000|INFO|start|batchid=3|x=1",
   "2024-02-02 08:00:01,000|INFO|stop|batchid=3|x=2",
   "2024-02-02 08:00:02,000|INFO|stop|batchid=3|x=1",
   "2024-02-02 08:00:03,000|INFO|start|batchid=4|x=9"]

def c3Row : EventRow := ⟨1, ⟨0, 1⟩, ⟨10, 1⟩, []⟩

def c3SpecHobo : List HoboSample :=
  [⟨⟨-1, 1⟩, ⟨10, 1⟩⟩, ⟨⟨1, 1⟩, ⟨20, 1⟩⟩, ⟨⟨9, 1⟩, ⟨30, 1⟩⟩]

def c3FarHobo : List HoboSample := [⟨⟨100, 1⟩, ⟨5, 1⟩⟩]

def c3RampRow : EventRow := ⟨1, ⟨0, 1⟩, ⟨10, 1⟩, [("ramp_time", "2")]⟩

def c3RampHobo : List HoboSample := [⟨⟨1, 1⟩, ⟨7, 1⟩⟩, ⟨⟨3, 1⟩, ⟨9, 1⟩⟩]

def c3EdgeRow : EventRow := ⟨2, ⟨0, 1⟩, ⟨10, 1⟩, []⟩

def c3EdgeHobo : List HoboSample :=
  [⟨⟨-1, 1⟩, ⟨10, 1⟩⟩, ⟨⟨1, 1⟩, ⟨20, 1⟩⟩, ⟨⟨9, 1⟩, ⟨30, 1⟩⟩, ⟨⟨10, 1⟩, ⟨40, 1⟩⟩]

def c4Job : FioJob :=
  ⟨101, "[job]\nbs=4k\n", [("bs", JVal.s "4k"), ("replicate", JVal.i 1)], ["replicate", "bs"]⟩

def c4NullRes : SpRunResult := ⟨0, [], []⟩

def c6Sweep : Sweep := ⟨[("bs", [JVal.s "4k", JVal.s "8k"])], [JVal.i 1]⟩

def c6BadTpl : List TplPart := [TplPart.lit "size=", TplPart.var "size"]

def c6GoodTpl : List TplPart := [TplPart.lit "bs=", TplPart.var "bs"]

def c7Job : FioJob :=
  ⟨55, "x", [("bs", JVal.s "8k"), ("replicate", JVal.i 2)], ["replicate", "bs"]⟩

def c8Job : FioJob :=
  ⟨77, "[job]", [("bs", JVal.s "4k"), ("replicate", JVal.i 1)], ["replicate", "bs"]⟩

def c8FailRes : SpRunResult := ⟨1, [], []⟩

def c9PctDf : DF := [("pct", Col.objS ["12.5%", "12.5%"])]

def c9PctDfOut : DF := [("pct", Col.flt [some ⟨125, 1000⟩, some ⟨125, 1000⟩])]

def c9HistDf0 : DF := [("hist", Col.objS ["0.1=5", "0.2=6"])]

def c9HistDf1 : DF := [("hist", Col.objP [(⟨1, 10⟩, 5), (⟨2, 10⟩, 6)])]

/- ===== Helper lemmas ===== -/

theorem exceptMap_ok_length {α β : Type} (f : α → Except String β) :
    ∀ (l : List α) (ys : List β), exceptMap f l = .ok ys → ys.length = l.length := by
  intro l
  induction l with
  | nil =>
    intro ys h
    simp only [exceptMap] at h
    injection h with h2
    simp [← h2]
  | cons a t ih =>
    intro ys h
    unfold exceptMap at h
    cases hfa : f a with
    | error e => rw [hfa] at h; cases h
    | ok b =>
      rw [hfa] at h
      cases hrest : exceptMap f t with
      | error e => rw [hrest] at h; cases h
      | ok bs =>
        rw [hrest] at h
        injection h with h2
        simp [← h2, ih bs hrest]

/- ===== Claim C10 ===== -/

/-- Claim C10: a correlation-log line that does not split into exactly five
    pipe-separated fields (blank lines and the continuation lines of
    multi-line messages included) produces no record, emits no warning, and
    leaves the pending pairing state unchanged; only five-field lines can
    affect the output of the reader. -/
theorem c10_nonfive_lines (pending : Pending) (line : String)
    (h : (pySplitChar line '|').length ≠ 5) :
    readLogStep pending line = .ok (pending, [], []) := by
  unfold readLogStep
  rw [if_neg h]

theorem c10_nonfive_lines_witness :
    ((pySplitChar "Starting replicate 1" '|').length ≠ 5)
    ∧ readLogStep none "Starting replicate 1" = .ok (none, [], [])
    ∧ ((pySplitChar "" '|').length ≠ 5)
    ∧ readLogStep (some ("t0", "bs=4k, replicate=1")) "" =
        .ok (some ("t0", "bs=4k, replicate=1"), [], []) :=
  ⟨by decide, c10_nonfive_lines none "Starting replicate 1" (by decide),
   by decide, c10_nonfive_lines (some ("t0", "bs=4k, replicate=1")) "" (by decide)⟩

/- ===== Claim C2 ===== -/

/-- Claim C2, counterexample: the reader pairs a stop with the pending
    start on serialized-parameter equality alone.  Here the start line
    carries correlation id 1 and the stop line id 2, yet they are paired
    into one record (whose id is taken from the stop line), so pairing does
    NOT require the correlation ids to match. -/
theorem c2_counterexample :
    readLog [c2StartLine, c2StopLine] =
      .ok ([⟨2, "2024-01-01 10:00:00,000", "2024-01-01 10:00:05,000", "bs=4k, replicate=1"⟩], [])
    ∧ (2 : Int) ≠ 1 := by
  refine ⟨?_, by decide⟩
  decide

/-- Claim C2, amended: a stop event pairs with the single pending start
    exactly when the serialized parameters match; the correlation id is
    never compared and the emitted record carries the stop line's id.  At
    most one start is pending at a time, so the result depends on
    interleaving: with the four events of two jobs interleaved, the second
    start and the first stop are warned away and only one record remains,
    while the same four events logged sequentially produce both records. -/
theorem c2_amended :
    readLog c2Interleaved =
      .ok ([⟨1, "2024-01-01 09:00:00,000", "2024-01-01 09:00:03,000", "a=1"⟩],
           ["Unexpected start after a=2", "Mismatched stop line for a=2"])
    ∧ readLog c2Sequential =
      .ok ([⟨1, "2024-01-01 09:00:00,000", "2024-01-01 09:00:02,000", "a=1"⟩,
            ⟨2, "2024-01-01 09:00:03,000", "2024-01-01 09:00:04,000", "a=2"⟩], []) := by
  constructor
  · decide
  · decide

/- ===== Claim C5 ===== -/

/-- Claim C5, counterexample: a start event whose stop never arrives is
    dropped silently.  A log holding a single start yields no record AND no
    warning, contradicting the claim that every unmatched start is
    reported. -/
theorem c5_counterexample :
    readLog [c5LoneStart] = .ok ([], []) := by
  decide

/-- Claim C5, amended: a stop whose parameters do not match the pending
    start is warned and excluded, and no record is produced for a job
    without both events; but a pending start whose stop never arrives is
    discarded silently, with no warning.  In this log the mismatched stop
    for x=2 is warned, the matching stop for x=1 pairs, and the trailing
    start for x=9 vanishes without a diagnostic. -/
theorem c5_amended :
    readLog c5Log =
      .ok ([⟨3, "2024-02-02 08:00:00,000", "2024-02-02 08:00:02,000", "x=1"⟩],
           ["Mismatched stop line for x=2"]) := by
  decide

/- ===== Claim C3 ===== -/

/-- Claim C3, counterexample: the telemetry slice is CLOSED at the stop
    label, because pandas label slicing keeps both endpoints.  With samples
    at start-1s, start+1s, stop-1s and exactly stop, the code counts 3
    samples and averages all three, while the claim (half-open window, the
    sample at exactly the stop time excluded) demands 2. -/
theorem c3_counterexample :
    reconcileRow c3EdgeHobo c3EdgeRow = .ok ⟨2, ⟨0, 1⟩, ⟨10, 1⟩, ⟨10, 1⟩, 3, some ⟨90, 3⟩⟩
    ∧ ¬ (Except.map JoinedRow.numSamples (reconcileRow c3EdgeHobo c3EdgeRow) = .ok 2)
    ∧ PyF.toRat ⟨90, 3⟩ = 30 := by
  refine ⟨by decide, by decide, ?_⟩
  norm_num [PyF.toRat]

/-- Claim C3, amended: the reconciler selects exactly the samples in the
    CLOSED interval from start-plus-ramp to stop, and reports their count
    and the mean of the power channel over exactly those samples.  On the
    spec scenario (samples at start-1s, start+1s, stop-1s, none exactly at
    the stop) the count is 2 and the mean is the average 25 of the two
    included samples; the ramp shift excludes samples before start+ramp;
    an empty window is represented as count 0 with a null mean, not an
    error. -/
theorem c3_amended :
    (∀ (hobo : List HoboSample) (lo hi : PyF) (s : HoboSample),
        s ∈ windowSamples hobo lo hi ↔ s ∈ hobo ∧ lo.leb s.time = true ∧ s.time.leb hi = true)
    ∧ reconcileRow c3SpecHobo c3Row = .ok ⟨1, ⟨0, 1⟩, ⟨10, 1⟩, ⟨10, 1⟩, 2, some ⟨50, 2⟩⟩
    ∧ PyF.toRat ⟨50, 2⟩ = 25
    ∧ reconcileRow c3RampHobo c3RampRow = .ok ⟨1, ⟨0, 1⟩, ⟨10, 1⟩, ⟨10, 1⟩, 1, some ⟨9, 1⟩⟩
    ∧ reconcileRow c3FarHobo c3Row = .ok ⟨1, ⟨0, 1⟩, ⟨10, 1⟩, ⟨10, 1⟩, 0, none⟩ := by
  refine ⟨?_, by decide, by norm_num [PyF.toRat], by decide, by decide⟩
  intro hobo lo hi s
  simp [windowSamples, List.mem_filter, Bool.and_eq_true]

/- ===== Claim C9 ===== -/

theorem colPct_idem (c c2 : Col) (h : colPct c = .ok c2) : colPct c2 = .ok c2 := by
  cases c with
  | objS vs =>
    by_cases hall : vs.all (fun s => pyEndsWith s '%') = true
    · cases hq : allSome (vs.map (fun s => pyFloat? (pyRstripChar s '%'))) with
      | none => simp [colPct, hall, hq] at h
      | some qs =>
        simp [colPct, hall, hq] at h
        rw [← h]
        rfl
    · simp [colPct, hall] at h
      rw [← h]
      simp [colPct, hall]
  | objP vs =>
    simp [colPct] at h
    rw [← h]
    rfl
  | flt vs =>
    simp [colPct] at h
    rw [← h]
    rfl
  | intCol vs =>
    simp [colPct] at h
    rw [← h]
    rfl

theorem colPct_pair_idem (p q : String × Col)
    (h : (colPct p.2).map (fun c2 => (p.1, c2)) = .ok q) :
    (colPct q.2).map (fun c2 => (q.1, c2)) = .ok q := by
  cases hc : colPct p.2 with
  | error e => rw [hc] at h; simp [Except.map] at h
  | ok c2 =>
    rw [hc] at h
    simp [Except.map] at h
    rw [← h]
    simp [colPct_idem p.2 c2 hc, Except.map]

theorem exceptMap_idem {α : Type} (f : α → Except String α)
    (hf : ∀ a b, f a = .ok b → f b = .ok b) :
    ∀ (l l2 : List α), exceptMap f l = .ok l2 → exceptMap f l2 = .ok l2 := by
  intro l
  induction l with
  | nil =>
    intro l2 h
    simp only [exceptMap] at h
    injection h with h2
    rw [← h2]
    rfl
  | cons a t ih =>
    intro l2 h
    unfold exceptMap at h
    cases ha : f a with
    | error e => rw [ha] at h; cases h
    | ok b =>
      rw [ha] at h
      cases ht : exceptMap f t with
      | error e => rw [ht] at h; cases h
      | ok bs =>
        rw [ht] at h
        injection h with h2
        rw [← h2]
        simp only [exceptMap, hf a b ha, ih bs ht]

/-- Claim C9, counterexample: the histogram pass is not idempotent.  A
    column whose cells have distinct left values becomes a column of
    (float, int) tuples; re-running the pass on that already-normalized
    table sends the tuple column through the .str accessor (all nulls,
    which pass every all() guard) and then fails on astype(int) of the
    nulls, instead of being a no-op. -/
theorem c9_counterexample :
    convert_histogram c9HistDf0 = .ok c9HistDf1
    ∧ convert_histogram c9HistDf1 =
        .error "IntCastingNaNError: cannot convert non-finite values to integer" := by
  exact ⟨by decide, by decide⟩

/-- Claim C9, amended: the percentage pass is idempotent in full (a second
    application to any table the first succeeded on returns that table
    unchanged and cannot fail), and a column of 12.5 percent strings
    becomes the float 0.125 with re-application a no-op.  The histogram
    pass, however, is only a no-op on tables without tuple-valued
    histogram columns; on a table containing one it raises (see the
    counterexample). -/
theorem c9_amended :
    (∀ (df df2 : DF), convert_percentages df = .ok df2 → convert_percentages df2 = .ok df2)
    ∧ convert_percentages c9PctDf = .ok c9PctDfOut
    ∧ convert_percentages c9PctDfOut = .ok c9PctDfOut
    ∧ PyF.toRat ⟨125, 1000⟩ = 125 / 1000 := by
  refine ⟨?_, by decide, by decide, by norm_num [PyF.toRat]⟩
  intro df df2 h
  exact exceptMap_idem _ colPct_pair_idem df df2 h

theorem c9_amended_witness :
    convert_percentages c9PctDf = .ok c9PctDfOut
    ∧ convert_percentages c9PctDfOut = .ok c9PctDfOut :=
  ⟨by decide, c9_amended.1 c9PctDf c9PctDfOut (by decide)⟩

/- ===== Claim C4 ===== -/

/-- Claim C4, counterexample: a job that exits with a non-zero code DOES
    log a stop event.  FioJob.run logs stop immediately after communicate
    returns, before the exit code is inspected, so a run with exit code 1
    emits start, stop AND an error event, contradicting the claim that the
    stop event appears on the success path only. -/
theorem c4_counterexample :
    FioJob.run c4Job none c4NullRes (.done 1 "" "") =
      .ok ⟨[LogEvent.debug ("fio input:\n" ++ c4Job.fio), LogEvent.info (startMsg c4Job),
            LogEvent.info (stopMsg c4Job), LogEvent.error "Job return code is 1"],
           none, some false⟩
    ∧ LogEvent.info (stopMsg c4Job) ∈ runEvents c4Job none c4NullRes (.done 1 "" "") := by
  exact ⟨by decide, by decide⟩

/-- Claim C4, amended: the start event is logged immediately before the
    tool is spawned, and the stop event is logged whenever the tool returns
    WITHOUT timing out, regardless of its exit code; a non-zero exit logs
    both a stop event and an error event, and only a timeout suppresses the
    stop (logging an error instead).  Both events carry the correlation id
    and the full mapping serialized as key=value pairs joined by a
    comma-space. -/
theorem c4_amended (j : FioJob) (bres : SpRunResult) :
    (∀ (rc : Int) (stdout stderr : String),
        FioJob.run j none bres (.done rc stdout stderr) =
          .ok ⟨[LogEvent.debug ("fio input:\n" ++ j.fio), LogEvent.info (startMsg j),
                LogEvent.info (stopMsg j)]
                ++ (if rc = 0 then [] else [LogEvent.error (retMsg rc stdout stderr)]),
               if rc = 0 then some (successText j stdout) else none,
               some (if rc = 0 then true else false)⟩)
    ∧ FioJob.run j none bres .timeout =
        .ok ⟨[LogEvent.debug ("fio input:\n" ++ j.fio), LogEvent.info (startMsg j),
              LogEvent.error ("Timeout waiting for " ++ serializeMapping j.mapping)],
             none, some false⟩
    ∧ (∀ (rc : Int) (stdout stderr : String),
        LogEvent.info (startMsg j) ∈ runEvents j none bres (.done rc stdout stderr)
        ∧ LogEvent.info (stopMsg j) ∈ runEvents j none bres (.done rc stdout stderr))
    ∧ LogEvent.info (startMsg j) ∈ runEvents j none bres .timeout
    ∧ startMsg j = "start|batchid=" ++ toString j.batchid ++ "|" ++ serializeMapping j.mapping
    ∧ stopMsg j = "stop|batchid=" ++ toString j.batchid ++ "|" ++ serializeMapping j.mapping
    ∧ serializeMapping j.mapping = pyJoin ", " (j.mapping.map (fun p => p.1 ++ "=" ++ p.2.str))
    ∧ LogEvent.info (stopMsg c4Job) ∉ runEvents c4Job none c4NullRes .timeout := by
  refine ⟨?_, by simp [FioJob.run, run_before], ?_, ?_, rfl, rfl, rfl, by decide⟩
  · intro rc stdout stderr
    by_cases hrc : rc = 0 <;> simp [FioJob.run, run_before, hrc]
  · intro rc stdout stderr
    by_cases hrc : rc = 0 <;> simp [runEvents, FioJob.run, run_before, hrc]
  · simp [runEvents, FioJob.run, run_before]

/- ===== Claim C7 ===== -/

/-- Claim C7: on a successful job every line of the terse output (trailing
    newlines stripped, then split into lines) becomes its own row in the
    shared output stream, prefixed by the mapping values in the declared
    key order with replicate first, joined by the semicolon delimiter with
    a trailing delimiter, and that key order is exactly the key-column
    order of the CSV header row. -/
theorem c7_success_rows (j : FioJob) (bres : SpRunResult) (stdout stderr : String) :
    FioJob.run j none bres (.done 0 stdout stderr) =
      .ok ⟨[LogEvent.debug ("fio input:\n" ++ j.fio), LogEvent.info (startMsg j),
            LogEvent.info (stopMsg j)], some (successText j stdout), some true⟩
    ∧ successText j stdout = String.intercalate "\n" (successRows j stdout) ++ "\n"
    ∧ (∀ line ∈ pySplitlines (pyRstripChar stdout '\n'), line ≠ "" →
        toPrepend j ++ line ∈ successRows j stdout)
    ∧ (successRows j stdout).length = (pySplitlines (pyRstripChar stdout '\n')).length
    ∧ toPrepend j = pyJoin ";" (j.order.map (fun k => (mapGet j.mapping k).str)) ++ ";"
    ∧ (∀ s : Sweep, j.order = jobOrder s →
        csvHeader s = pyJoin ";" (j.order) ++ ";" ++ fio_headers) := by
  refine ⟨by simp [FioJob.run, run_before], rfl, ?_, by simp [successRows], rfl, ?_⟩
  · intro line hl _
    simp only [successRows]
    exact List.mem_map_of_mem _ hl
  · intro s hs
    rw [hs]
    rfl

theorem c7_success_rows_witness :
    ("3;fio" ∈ pySplitlines (pyRstripChar "3;fio\n7;fio\n" '\n'))
    ∧ toPrepend c7Job ++ "3;fio" ∈ successRows c7Job "3;fio\n7;fio\n"
    ∧ toPrepend c7Job ++ "7;fio" ∈ successRows c7Job "3;fio\n7;fio\n" :=
  ⟨by decide,
   (c7_success_rows c7Job ⟨0, [], []⟩ "3;fio\n7;fio\n" "").2.2.1 "3;fio" (by decide) (by decide),
   (c7_success_rows c7Job ⟨0, [], []⟩ "3;fio\n7;fio\n" "").2.2.1 "7;fio" (by decide) (by decide)⟩

/- ===== Claim C8 ===== -/

/-- Claim C8: the claim states the intended warn-only pre-hook contract,
    but the code breaks it.  When the pre-hook exits non-zero, the
    error-logging branch concatenates an f-string with result.stderr,
    which is a bytes object (capture_output without text mode), so the
    failure handling itself raises TypeError; the raise propagates through
    FioJob.run before the start event, so the job never proceeds to cache
    invalidation or execution. -/
theorem c8_prehook_raises :
    run_before (some "false") c8FailRes =
      .error "TypeError: can only concatenate str (not bytes) to str"
    ∧ FioJob.run c8Job (some "false") c8FailRes (.done 0 "ok-output" "") =
      .error "TypeError: can only concatenate str (not bytes) to str" := by
  exact ⟨by decide, by decide⟩

/- ===== Claim C1 ===== -/

theorem length_flatMap_const {α β : Type} (f : α → List β) (n : Nat) :
    ∀ (l : List α), (∀ x ∈ l, (f x).length = n) → (l.flatMap f).length = l.length * n := by
  intro l
  induction l with
  | nil => intro _; simp
  | cons a t ih =>
    intro hf
    have h1 : (a :: t).flatMap f = f a ++ t.flatMap f := rfl
    rw [h1, List.length_append, hf a (List.mem_cons_self a t),
      ih (fun x hx => hf x (List.mem_cons_of_mem a hx))]
    simp [List.length_cons, Nat.succ_mul, Nat.add_comm]

theorem prodLists_length {α : Type} (ls : List (List α)) :
    (prodLists ls).length = (ls.map List.length).prod := by
  induction ls with
  | nil => rfl
  | cons l t ih =>
    have h1 : prodLists (l :: t) = l.flatMap (fun x => (prodLists t).map (fun tl => x :: tl)) :=
      rfl
    rw [h1, length_flatMap_const _ ((t.map List.length).prod) l
      (fun x _ => by simp [List.length_map, ih])]
    simp

theorem mappingsFor_length (s : Sweep) (sh : List (List JVal) → List (List JVal)) (rep : JVal)
    (hs : ∀ l, (sh l).Perm l) :
    (mappingsFor s sh rep).length = ((candidateLists s).map List.length).prod := by
  unfold mappingsFor
  rw [List.length_map, (hs _).length_eq, prodLists_length]

theorem exceptMap_flatten_length {α β : Type} (f : α → Except String (List β)) (n : Nat)
    (hf : ∀ x ys, f x = .ok ys → ys.length = n) :
    ∀ (l : List α) (chunks : List (List β)),
      exceptMap f l = .ok chunks → chunks.flatten.length = l.length * n := by
  intro l
  induction l with
  | nil =>
    intro chunks h
    simp only [exceptMap] at h
    injection h with h2
    simp [← h2]
  | cons a t ih =>
    intro chunks h
    unfold exceptMap at h
    cases ha : f a with
    | error e => rw [ha] at h; cases h
    | ok b =>
      rw [ha] at h
      cases ht : exceptMap f t with
      | error e => rw [ht] at h; cases h
      | ok bs =>
        rw [ht] at h
        injection h with h2
        rw [← h2]
        have h3 : (b :: bs).flatten = b ++ bs.flatten := rfl
        rw [h3, List.length_append, hf a b ha, ih bs ht]
        simp [List.length_cons, Nat.succ_mul, Nat.add_comm]

theorem jobsForReplicate_length (tpls : List (List TplPart)) (s : Sweep)
    (sh : List (List JVal) → List (List JVal)) (rep : JVal)
    (jobs : List (String × Mapping))
    (hs : ∀ l, (sh l).Perm l)
    (h : jobsForReplicate tpls s sh rep = .ok jobs) :
    jobs.length = tpls.length * ((candidateLists s).map List.length).prod := by
  unfold jobsForReplicate at h
  cases hall : exceptMap (fun tpl => jobsForTemplate tpl s sh rep) tpls with
  | error e => rw [hall] at h; cases h
  | ok chunks =>
    rw [hall] at h
    injection h with h2
    rw [← h2]
    refine exceptMap_flatten_length _ (((candidateLists s).map List.length).prod) ?_ tpls chunks hall
    intro tpl ys hy
    have hy2 := exceptMap_ok_length (fun m => (substituteTpl tpl m).map (fun scr => (scr, m)))
      (mappingsFor s sh rep) ys hy
    rw [hy2, mappingsFor_length s sh rep hs]

theorem comboOf_mapping (keys : List String) (v : List JVal) (rep : JVal) :
    comboOf (keys.zip v ++ [("replicate", rep)]) = keys.zip v := by
  unfold comboOf
  rw [List.dropLast_concat]

theorem mappingsFor_combo_perm (s : Sweep) (sh1 sh2 : List (List JVal) → List (List JVal))
    (r1 r2 : JVal) (h1 : ∀ l, (sh1 l).Perm l) (h2 : ∀ l, (sh2 l).Perm l) :
    ((mappingsFor s sh1 r1).map comboOf).Perm ((mappingsFor s sh2 r2).map comboOf) := by
  unfold mappingsFor
  rw [List.map_map, List.map_map]
  have e1 : (comboOf ∘ fun values => (paramKeys s).zip values ++ [("replicate", r1)])
      = fun values => (paramKeys s).zip values := by
    funext v
    exact comboOf_mapping _ v r1
  have e2 : (comboOf ∘ fun values => (paramKeys s).zip values ++ [("replicate", r2)])
      = fun values => (paramKeys s).zip values := by
    funext v
    exact comboOf_mapping _ v r2
  rw [e1, e2]
  exact ((h1 _).trans (h2 _).symm).map _

theorem flatMap_const_nil {α β : Type} (l : List α) :
    (l.flatMap (fun _ => ([] : List β))) = [] := by
  induction l with
  | nil => rfl
  | cons a t ih =>
    have h1 : (a :: t).flatMap (fun _ => ([] : List β))
        = [] ++ t.flatMap (fun _ => ([] : List β)) := rfl
    rw [h1, ih]
    rfl

theorem prodLists_of_mem_nil {α : Type} (ls : List (List α)) (h : [] ∈ ls) :
    prodLists ls = [] := by
  induction ls with
  | nil => cases h
  | cons l t ih =>
    rcases List.mem_cons.mp h with h1 | h2
    · rw [← h1]
      rfl
    · have h3 : prodLists (l :: t) = l.flatMap (fun x => (prodLists t).map (fun tl => x :: tl)) :=
        rfl
      rw [h3, ih h2]
      simp only [List.map_nil]
      exact flatMap_const_nil l

theorem mappingsFor_empty (s : Sweep) (sh : List (List JVal) → List (List JVal)) (rep : JVal)
    (hs : ∀ l, (sh l).Perm l) (k : String)
    (hk : (k, ([] : List JVal)) ∈ s.fioParams) :
    mappingsFor s sh rep = [] := by
  have h0 : ([] : List JVal) ∈ candidateLists s := List.mem_map_of_mem Prod.snd hk
  have h2 : sh (prodLists (candidateLists s)) = [] := by
    rw [prodLists_of_mem_nil _ h0]
    exact (hs []).eq_nil
  unfold mappingsFor
  rw [h2]
  rfl

/-- Claim C1, counterexample: the end-to-end scenario numbers.  For the
    sweep with one parameter bs of two candidates, replicates 2 and a
    single template, the code produces 2 jobs per replicate and 4 jobs in
    total (hence 4 data rows when each job emits one line), not the 4 per
    replicate and 8 total the claim states; the key columns are
    replicate-semicolon-bs as claimed. -/
theorem c1_counterexample :
    Except.map List.length (jobsForReplicate [c1Tpl] c1Sweep id (JVal.i 1)) = .ok 2
    ∧ ¬ (Except.map List.length (jobsForReplicate [c1Tpl] c1Sweep id (JVal.i 1)) = .ok 4)
    ∧ Except.map List.length (allJobs [c1Tpl] c1Sweep id) = .ok 4
    ∧ ¬ (Except.map List.length (allJobs [c1Tpl] c1Sweep id) = .ok 8)
    ∧ csvHeader c1Sweep = "replicate;bs;" ++ fio_headers := by
  refine ⟨by decide, by decide, by decide, by decide, rfl⟩

/-- Claim C1, amended: per replicate the expansion yields one full
    cartesian product per template, so the job count is the number of
    templates times the product of the candidate-list lengths; every
    replicate executes the same multiset of combinations regardless of the
    per-replicate shuffle; an empty candidate list makes the whole sweep
    empty (zero jobs, no error); and the scenario of one bs parameter with
    two candidates, two replicates and one template yields 2 jobs per
    replicate, 4 in total, with key columns replicate then bs in the CSV
    header. -/
theorem c1_amended (s : Sweep) (tpls : List (List TplPart))
    (sh : List (List JVal) → List (List JVal)) (rep : JVal)
    (jobs : List (String × Mapping))
    (hs : ∀ l, (sh l).Perm l)
    (hok : jobsForReplicate tpls s sh rep = .ok jobs) :
    jobs.length = tpls.length * ((candidateLists s).map List.length).prod
    ∧ (∀ (sh2 : List (List JVal) → List (List JVal)) (rep2 : JVal),
        (∀ l, (sh2 l).Perm l) →
        ((mappingsFor s sh rep).map comboOf).Perm ((mappingsFor s sh2 rep2).map comboOf))
    ∧ (∀ k, (k, ([] : List JVal)) ∈ s.fioParams → mappingsFor s sh rep = [])
    ∧ csvHeader c1Sweep = "replicate;bs;" ++ fio_headers
    ∧ Except.map List.length (jobsForReplicate [c1Tpl] c1Sweep id (JVal.i 1)) = .ok 2
    ∧ Except.map List.length (allJobs [c1Tpl] c1Sweep id) = .ok 4 :=
  ⟨jobsForReplicate_length tpls s sh rep jobs hs hok,
   fun sh2 rep2 h2 => mappingsFor_combo_perm s sh sh2 rep rep2 hs h2,
   fun k hk => mappingsFor_empty s sh rep hs k hk,
   rfl, by decide, by decide⟩

theorem c1_amended_witness :
    (∀ (l : List (List JVal)), (id l).Perm l)
    ∧ jobsForReplicate [c1Tpl] c1Sweep id (JVal.i 1) = .ok c1Jobs
    ∧ c1Jobs.length = [c1Tpl].length * ((candidateLists c1Sweep).map List.length).prod :=
  ⟨fun l => List.Perm.refl l, by decide,
   (c1_amended c1Sweep [c1Tpl] id (JVal.i 1) c1Jobs (fun l => List.Perm.refl l) (by decide)).1⟩

/- ===== Claim C6 ===== -/

theorem assoc_eq_none {α : Type} (m : List (String × α)) (k : String)
    (h : k ∉ m.map Prod.fst) : assoc m k = none := by
  induction m with
  | nil => rfl
  | cons p t ih =>
    rcases p with ⟨k2, v⟩
    have h2 : ¬ (k = k2 ∨ k ∈ t.map Prod.fst) := by simpa using h
    unfold assoc
    rw [if_neg (fun he => h2 (Or.inl he.symm))]
    exact ih (fun hm => h2 (Or.inr hm))

theorem substituteTpl_error (tpl : List TplPart) (m : Mapping) (v : String)
    (hnone : assoc m v = none) :
    TplPart.var v ∈ tpl → ∃ e, substituteTpl tpl m = .error e := by
  induction tpl with
  | nil => intro hmem; cases hmem
  | cons p t ih =>
    intro hmem
    rcases List.mem_cons.mp hmem with h1 | h2
    · rw [← h1]
      exact ⟨"KeyError: " ++ v, by simp [substituteTpl, hnone]⟩
    · cases p with
      | lit sl =>
        rcases ih h2 with ⟨e, he⟩
        exact ⟨e, by simp [substituteTpl, he, Except.map]⟩
      | var k =>
        cases hk : assoc m k with
        | none => exact ⟨"KeyError: " ++ k, by simp [substituteTpl, hk]⟩
        | some val =>
          rcases ih h2 with ⟨e, he⟩
          exact ⟨e, by simp [substituteTpl, hk, he, Except.map]⟩

theorem exceptMap_error_head {α β : Type} (f : α → Except String β) (a : α) (t : List α)
    (e : String) (ha : f a = .error e) : exceptMap f (a :: t) = .error e := by
  simp [exceptMap, ha]

theorem exceptMap_error_of_mem {α β : Type} (f : α → Except String β) (l : List α) (x : α)
    (hx : x ∈ l) (e : String) (hfx : f x = .error e) :
    ∃ e2, exceptMap f l = .error e2 := by
  induction l with
  | nil => cases hx
  | cons a t ih =>
    rcases List.mem_cons.mp hx with h1 | h2
    · rw [← h1] at *
      exact ⟨e, exceptMap_error_head f x t e hfx⟩
    · cases ha : f a with
      | error e3 => exact ⟨e3, exceptMap_error_head f a t e3 ha⟩
      | ok b =>
        rcases ih h2 with ⟨e2, he2⟩
        exact ⟨e2, by simp [exceptMap, ha, he2]⟩

/-- Claim C6, counterexample: an unresolved placeholder does NOT leave the
    rest of the sweep running.  t.substitute raises KeyError inside the
    job-construction loop with no handler, so a sweep with a bad template
    followed by a good one aborts whole: no job list is produced at all,
    not even for the good template, and no job runs. -/
theorem c6_counterexample :
    jobsForReplicate [c6BadTpl, c6GoodTpl] c6Sweep id (JVal.i 1) = .error "KeyError: size"
    ∧ allJobs [c6BadTpl, c6GoodTpl] c6Sweep id = .error "KeyError: size" := by
  exact ⟨by decide, by decide⟩

/-- Claim C6, amended: a placeholder with no corresponding mapping entry
    does surface during job construction (the job is never executed), but
    the uncaught KeyError aborts the whole expansion: whenever some
    template uses an unbound placeholder and the sweep is non-empty, the
    replicate produces an error and no jobs at all, rather than continuing
    with the remaining jobs. -/
theorem c6_amended (s : Sweep) (tpls : List (List TplPart))
    (sh : List (List JVal) → List (List JVal)) (rep : JVal)
    (tpl : List TplPart) (v : String)
    (htpl : tpl ∈ tpls) (hv : TplPart.var v ∈ tpl)
    (hkey : v ∉ jobOrder s)
    (hne : mappingsFor s sh rep ≠ []) :
    ∃ e, jobsForReplicate tpls s sh rep = .error e := by
  cases hsp : sh (prodLists (candidateLists s)) with
  | nil =>
    exact absurd (by unfold mappingsFor; rw [hsp]; rfl) hne
  | cons v0 vrest =>
    have hm : mappingsFor s sh rep
        = ((paramKeys s).zip v0 ++ [("replicate", rep)])
          :: vrest.map (fun values => (paramKeys s).zip values ++ [("replicate", rep)]) := by
      unfold mappingsFor
      rw [hsp]
      rfl
    have hnotmem : v ∉ ((paramKeys s).zip v0 ++ [("replicate", rep)]).map Prod.fst := by
      intro hvm
      rw [List.map_append] at hvm
      rcases List.mem_append.mp hvm with hL | hR
      · rcases List.mem_map.mp hL with ⟨pr, hpr, hfst⟩
        obtain ⟨a, b⟩ := pr
        have hk1 : a ∈ paramKeys s := (List.of_mem_zip hpr).1
        have hfst2 : a = v := hfst
        rw [hfst2] at hk1
        exact hkey (List.mem_cons_of_mem _ hk1)
      · simp at hR
        exact hkey (by rw [hR]; exact List.mem_cons_self _ _)
    rcases substituteTpl_error tpl ((paramKeys s).zip v0 ++ [("replicate", rep)]) v
      (assoc_eq_none _ _ hnotmem) hv with ⟨e, he⟩
    have he2 : jobsForTemplate tpl s sh rep = .error e := by
      unfold jobsForTemplate
      rw [hm]
      exact exceptMap_error_head _ _ _ e (by simp [he, Except.map])
    rcases exceptMap_error_of_mem (fun tp => jobsForTemplate tp s sh rep) tpls tpl htpl e he2
      with ⟨e3, he3⟩
    refine ⟨e3, ?_⟩
    unfold jobsForReplicate
    rw [he3]

theorem c6_amended_witness :
    (c6BadTpl ∈ [c6BadTpl, c6GoodTpl])
    ∧ (TplPart.var "size" ∈ c6BadTpl)
    ∧ ("size" ∉ jobOrder c6Sweep)
    ∧ (mappingsFor c6Sweep id (JVal.i 1) ≠ [])
    ∧ (∃ e, jobsForReplicate [c6BadTpl, c6GoodTpl] c6Sweep id (JVal.i 1) = .error e) :=
  ⟨by decide, by decide, by decide, by decide,
   c6_amended c6Sweep [c6BadTpl, c6GoodTpl] id (JVal.i 1) c6BadTpl "size"
     (by decide) (by decide) (by decide) (by decide)⟩
